import Mathlib

/-
  Verification of the OpenHealth shared backend against its specification.

  Shallow embedding of:
  - shared-backend/ai-services/claude_service.py  (ClaudeService: generate_response,
    analyze_venture, detect_meeting_request, _extract_structured_data,
    _get_fallback_response)
  - shared-backend/auth/dependencies.py  (token creation, get_current_user,
    get_current_admin_user)
  - shared-backend/auth/middleware.py  (AuthMiddleware.dispatch, PUBLIC_ROUTES,
    ADMIN_ROUTES)
  - shared-backend/api/v1/router.py  (chat_endpoint, widget_chat path)
  - shared-backend/api/v1/endpoints/auth.py  (register/login/admin-login token
    issuance)

  External effects are modelled as oracles passed in as parameters: the outcome of
  the Claude API call is an `Except Unit String` (error = any raised exception,
  ok = the reply text), and Python's `json.loads` restricted to the object case is
  a parameter of type `String → Option (List (String × JVal))` (none = parse error
  raised).  Python dict values are modelled by the `JVal` type, dicts by
  association lists in insertion order, mirroring CPython's ordered dicts.
-/

namespace OpenHealth

set_option maxRecDepth 16384

/-- A Python/JSON value as it appears in dicts produced by `json.loads` and in the
`extracted_data` dictionaries of `claude_service.py`. -/
inductive JVal where
  | jnull
  | jbool (b : Bool)
  | jnum (n : Int)
  | jstr (s : String)
  | jarr (xs : List JVal)
  | jobj (fields : List (String × JVal))
  deriving Repr

/-- Python `d.get(k)` on an association-list dict: the value of the first binding
of `k`, if any. -/
def jget? (d : List (String × JVal)) (k : String) : Option JVal :=
  match d with
  | [] => none
  | (k', v) :: rest => if k' = k then some v else jget? rest k

/-- Python `d.get(k, dflt)`. -/
def jgetD (d : List (String × JVal)) (k : String) (dflt : JVal) : JVal :=
  (jget? d k).getD dflt

/-- Python `d[k] = v` on an association-list dict: overwrite the first binding of
`k` in place, or append a new binding. -/
def dictSet (d : List (String × JVal)) (k : String) (v : JVal) : List (String × JVal) :=
  match d with
  | [] => [(k, v)]
  | (k', v') :: rest => if k' = k then (k, v) :: rest else (k', v') :: dictSet rest k v

/-- Python `lst.append(entry)` on a value known to be a list; any other value is
returned unchanged (the code only ever appends to a value it initialised as `[]`). -/
def jarrPush (v entry : JVal) : JVal :=
  match v with
  | .jarr xs => .jarr (xs ++ [entry])
  | other => other

/-- Python truthiness `bool(v)` for the modelled values. -/
def jTruthy : JVal → Bool
  | .jnull => false
  | .jbool b => b
  | .jnum n => n != 0
  | .jstr s => s != ""
  | .jarr xs => !xs.isEmpty
  | .jobj fs => !fs.isEmpty

/-- List-level string helper: is the first list a leading segment of the second. -/
def isPrefixList : List Char → List Char → Bool
  | [], _ => true
  | _ :: _, [] => false
  | a :: as, b :: bs => a == b && isPrefixList as bs

/-- List-level substring occurrence check. -/
def containsSub (pat : List Char) : List Char → Bool
  | [] => pat.isEmpty
  | c :: rest => isPrefixList pat (c :: rest) || containsSub pat rest

/-- Python `pat in s`. -/
def strContains (s pat : String) : Bool :=
  containsSub pat.data s.data

/-- Python `s.startswith(pre)`; also models `re.match("^pre.*", s)`. -/
def strStartsWith (s pre : String) : Bool :=
  isPrefixList pre.data s.data

/-- Python `s.lower()` (character-wise lowering; the source only compares ASCII
keywords). -/
def lowerStr (s : String) : String :=
  String.mk (s.data.map Char.toLower)

/-- Index of the first occurrence of a character, Python `s.find(c)` when it
succeeds (`none` models the return value `-1`). -/
def findIdxAux (p : Char → Bool) : List Char → Nat → Option Nat
  | [], _ => none
  | c :: rest, i => if p c then some i else findIdxAux p rest (i + 1)

/-- Python `s.find(c)` as an `Option`. -/
def strFind (s : String) (c : Char) : Option Nat :=
  findIdxAux (fun a => a == c) s.data 0

/-- Python `s.rfind(c)` as an `Option`. -/
def strRfind (s : String) (c : Char) : Option Nat :=
  match findIdxAux (fun a => a == c) s.data.reverse 0 with
  | none => none
  | some i => some (s.data.length - 1 - i)

/-- The brace-scanning step shared by `analyze_venture` and
`detect_meeting_request` (claude_service.py lines 167-171 and 240-244):
`json_start = response.find(&~); json_end = response.rfind(&~) + 1;
if json_start >= 0 and json_end > json_start: json_str = response[json_start:json_end]`.
Returns the slice when the guard holds, `none` when control falls through to the
default. -/
def jsonSpan (response : String) : Option String :=
  match strFind response '\x7b', strRfind response '\x7d' with
  | some jstart, some jlast =>
      if jstart ≤ jlast then
        some (String.mk ((response.data.drop jstart).take (jlast + 1 - jstart)))
      else none
  | _, _ => none

/-- `meeting_keywords` from `_extract_structured_data` (claude_service.py line 386). -/
def meeting_keywords : List String :=
  ["meeting", "schedule", "call", "discuss", "available"]

/-- `venture_keywords` from `_extract_structured_data` (claude_service.py line 392). -/
def venture_keywords : List String :=
  ["company", "startup", "business", "product", "market"]

/-- The initial `extracted_data` dict of `_extract_structured_data`
(claude_service.py lines 373-379). -/
def baseExtractedData : List (String × JVal) :=
  [("intent", .jstr "general_chat"),
   ("entities", .jarr []),
   ("meeting_request", .jbool false),
   ("venture_info", .jobj []),
   ("next_actions", .jarr [])]

/-- The meeting-keyword block of `_extract_structured_data` (claude_service.py
lines 386-389): `extracted_data["meeting_request"] = True;
extracted_data["intent"] = "meeting_scheduling"` when any meeting keyword occurs
in the lowered reply. -/
def meetingKeywordStep (text_lower : String) (d : List (String × JVal)) :
    List (String × JVal) :=
  if meeting_keywords.any (fun kw => strContains text_lower kw) then
    dictSet (dictSet d "meeting_request" (.jbool true)) "intent" (.jstr "meeting_scheduling")
  else d

/-- The venture-keyword block of `_extract_structured_data` (claude_service.py
lines 392-394): `extracted_data["intent"] = "venture_discussion"` when any
venture keyword occurs — running after (and so overriding) the meeting block. -/
def ventureKeywordStep (text_lower : String) (d : List (String × JVal)) :
    List (String × JVal) :=
  if venture_keywords.any (fun kw => strContains text_lower kw) then
    dictSet d "intent" (.jstr "venture_discussion")
  else d

/-- The entity block of `_extract_structured_data` (claude_service.py lines
398-403): when the caller's company name is truthy and occurs (lowered) in the
reply, append a company entity to `extracted_data["entities"]`. -/
def entityStep (text_lower : String) (company : Option String)
    (d : List (String × JVal)) : List (String × JVal) :=
  match company with
  | none => d
  | some c =>
      if c = "" then d
      else if strContains text_lower (lowerStr c) then
        dictSet d "entities"
          (jarrPush (jgetD d "entities" (.jarr []))
            (.jobj [("type", .jstr "company"), ("value", .jstr c)]))
      else d

/-- `ClaudeService._extract_structured_data` (claude_service.py lines 366-408):
the base dict mutated by the three keyword blocks in source order.
`conversation_messages` is received and ignored exactly as in the source;
`company` models `user_context.get(&~company&~)` collapsed with the presence of
`user_context` itself (`none` = no context or no company key). -/
def extractStructuredData (response_text : String)
    (conversation_messages : List (String × String)) (company : Option String) :
    List (String × JVal) :=
  let _ := conversation_messages
  let text_lower := lowerStr response_text
  entityStep text_lower company
    (ventureKeywordStep text_lower (meetingKeywordStep text_lower baseExtractedData))

/-- The literal string returned by `ClaudeService._get_fallback_response`
(claude_service.py lines 410-414), byte for byte (triple-quoted string with its
embedded newlines and indentation). -/
def fallbackResponse : String :=
  "I apologize, but I\x27m experiencing some technical difficulties right now. \n        Let me connect you with a member of our team who can help you with your healthcare venture. \n        In the meantime, feel free to share more details about your project."

/-- `ClaudeService.generate_response` (claude_service.py lines 66-108).  The whole
body sits in one `try`; `modelResult` is the oracle for everything up to and
including the Claude API call and the read of `response.content[0].text`
(`.error` = any raised exception, `.ok text` = the reply text).  On success the
extraction step runs; on any exception the method returns the fallback string and
the literal empty dict `{}` (not the skeleton dict). -/
def generateResponse (messages : List (String × String))
    (modelResult : Except Unit String) (company : Option String) :
    String × List (String × JVal) :=
  match modelResult with
  | .ok response_text => (response_text, extractStructuredData response_text messages company)
  | .error _ => (fallbackResponse, [])

/-- `VentureAnalysis` (claude_service.py lines 26-40).  Field values are kept as
raw `JVal`s because the Python dataclass performs no runtime coercion: each field
holds exactly what `analysis_data.get(...)` returned. -/
structure VentureAnalysis where
  name : JVal
  description : JVal
  stage : JVal
  market_size : JVal
  funding_status : JVal
  team_size : JVal
  location : JVal
  score : JVal
  score_breakdown : JVal
  key_strengths : JVal
  concerns : JVal
  next_steps : JVal
  deriving Repr

/-- The `VentureAnalysis(...)` built in the parse-success branch of
`analyze_venture` (claude_service.py lines 174-187), with the per-field
`.get` defaults. -/
def ventureFromFields (analysis_data : List (String × JVal)) : VentureAnalysis where
  name := jgetD analysis_data "name" (.jstr "Unknown Venture")
  description := jgetD analysis_data "description" (.jstr "")
  stage := jgetD analysis_data "stage" (.jstr "idea")
  market_size := jgetD analysis_data "market_size" (.jstr "medium")
  funding_status := jgetD analysis_data "funding_status" (.jstr "unknown")
  team_size := jgetD analysis_data "team_size" .jnull
  location := jgetD analysis_data "location" (.jstr "")
  score := jgetD analysis_data "score" (.jnum 50)
  score_breakdown := jgetD analysis_data "score_breakdown" (.jobj [])
  key_strengths := jgetD analysis_data "key_strengths" (.jarr [])
  concerns := jgetD analysis_data "concerns" (.jarr [])
  next_steps := jgetD analysis_data "next_steps" (.jarr [])

/-- The default `VentureAnalysis` returned when parsing fails
(claude_service.py lines 193-206). -/
def defaultVentureAnalysis : VentureAnalysis where
  name := .jstr "Healthcare Venture"
  description := .jstr "Analysis pending"
  stage := .jstr "idea"
  market_size := .jstr "medium"
  funding_status := .jstr "unknown"
  team_size := .jnull
  location := .jstr ""
  score := .jnum 50
  score_breakdown := .jobj []
  key_strengths := .jarr []
  concerns := .jarr [.jstr "Incomplete information"]
  next_steps := .jarr [.jstr "Continue conversation"]

/-- The part of `ClaudeService.analyze_venture` (claude_service.py lines 166-206)
downstream of the `generate_response` call: brace scan, `json.loads` (the
`parseObj` oracle; `none` = `json.loads` raised, caught by the `except`), and the
two default paths (guard false falls through; parse error is caught) which both
return `defaultVentureAnalysis`. -/
def analyzeVentureReply (parseObj : String → Option (List (String × JVal)))
    (response : String) : VentureAnalysis :=
  match jsonSpan response with
  | some json_str =>
      match parseObj json_str with
      | some analysis_data => ventureFromFields analysis_data
      | none => defaultVentureAnalysis
  | none => defaultVentureAnalysis

/-- `ClaudeService.analyze_venture` (claude_service.py lines 110-206):
`generate_response` (which never raises) followed by the JSON extraction. -/
def analyzeVenture (parseObj : String → Option (List (String × JVal)))
    (messages : List (String × String)) (modelResult : Except Unit String)
    (company : Option String) : VentureAnalysis :=
  analyzeVentureReply parseObj (generateResponse messages modelResult company).1

/-- `MeetingRequest` (claude_service.py lines 43-51), raw-valued like
`VentureAnalysis`. -/
structure MeetingReq where
  requested : JVal
  urgency : JVal
  preferred_times : JVal
  meeting_type : JVal
  duration : JVal
  agenda_items : JVal
  deriving Repr

/-- The `MeetingRequest(...)` built in the parse-success branch of
`detect_meeting_request` (claude_service.py lines 247-254). -/
def meetingFromFields (meeting_data : List (String × JVal)) : MeetingReq where
  requested := jgetD meeting_data "requested" (.jbool false)
  urgency := jgetD meeting_data "urgency" (.jstr "medium")
  preferred_times := jgetD meeting_data "preferred_times" (.jarr [])
  meeting_type := jgetD meeting_data "meeting_type" (.jstr "discovery")
  duration := jgetD meeting_data "duration" (.jnum 30)
  agenda_items := jgetD meeting_data "agenda_items" (.jarr [])

/-- The default "no meeting requested" result (claude_service.py lines 260-267). -/
def defaultMeetingReq : MeetingReq where
  requested := .jbool false
  urgency := .jstr "low"
  preferred_times := .jarr []
  meeting_type := .jstr "discovery"
  duration := .jnum 30
  agenda_items := .jarr []

/-- The part of `detect_meeting_request` (claude_service.py lines 239-267)
downstream of the `generate_response` call. -/
def detectMeetingRequestReply (parseObj : String → Option (List (String × JVal)))
    (response : String) : MeetingReq :=
  match jsonSpan response with
  | some json_str =>
      match parseObj json_str with
      | some meeting_data => meetingFromFields meeting_data
      | none => defaultMeetingReq
  | none => defaultMeetingReq

/-- `ClaudeService.detect_meeting_request` (claude_service.py lines 208-267):
a `generate_response` call (no user context) followed by the JSON extraction.
The inbound message only shapes the prompt, which the oracle already absorbs. -/
def detectMeetingRequest (parseObj : String → Option (List (String × JVal)))
    (modelResult : Except Unit String) : MeetingReq :=
  detectMeetingRequestReply parseObj (generateResponse [] modelResult none).1

/-- `create_access_token` from auth/dependencies.py lines 225-246 (the variant the
auth endpoints import): `to_encode = data.copy(); to_encode.update(&~"exp": expire&~)`.
The expiry datetime is abstracted to an integer timestamp. -/
def createAccessTokenPayload (data : List (String × JVal)) (exp : Int) :
    List (String × JVal) :=
  dictSet data "exp" (.jnum exp)

/-- `create_refresh_token` from auth/dependencies.py lines 249-265:
`to_encode.update(&~"exp": expire, "type": "refresh"&~)` — note that this
overwrites any `"type"` already present in `data`. -/
def createRefreshTokenPayload (data : List (String × JVal)) (exp : Int) :
    List (String × JVal) :=
  dictSet (dictSet data "exp" (.jnum exp)) "type" (.jstr "refresh")

/-- The token pair issued by `POST /auth/register` and `POST /auth/login`
(endpoints/auth.py lines 185-190 and 243-248): both calls pass
`data = &~"sub": str(user.id), "type": "user"&~`. -/
def loginTokens (user_id : String) (accessExp refreshExp : Int) :
    List (String × JVal) × List (String × JVal) :=
  (createAccessTokenPayload [("sub", .jstr user_id), ("type", .jstr "user")] accessExp,
   createRefreshTokenPayload [("sub", .jstr user_id), ("type", .jstr "user")] refreshExp)

/-- The token pair issued by `POST /auth/admin/login` (endpoints/auth.py lines
301-306): `data = &~"sub": str(admin.id), "type": "admin"&~`. -/
def adminLoginTokens (admin_id : String) (accessExp refreshExp : Int) :
    List (String × JVal) × List (String × JVal) :=
  (createAccessTokenPayload [("sub", .jstr admin_id), ("type", .jstr "admin")] accessExp,
   createRefreshTokenPayload [("sub", .jstr admin_id), ("type", .jstr "admin")] refreshExp)

/-- Result of an authentication guard: the authenticated principal's `sub` value,
or a 401 rejection with the `AuthenticationError` detail string. -/
inductive GuardResult where
  | ok (sub : JVal)
  | unauthorized (detail : String)
  deriving Repr

/-- Is the guard result an acceptance? -/
def guardAccepts : GuardResult → Bool
  | .ok _ => true
  | .unauthorized _ => false

/-- `get_current_user` (auth/dependencies.py lines 50-94).  `payload?` is the
result of `verify_token` (`none` = invalid signature, in which case the guard
raises "Invalid token"); `userFound` abstracts the database lookup of the user
row.  Python's `payload.get("sub") is None` is true both when the key is absent
and when it maps to JSON null. -/
def getCurrentUser (payload? : Option (List (String × JVal))) (userFound : Bool) :
    GuardResult :=
  match payload? with
  | none => .unauthorized "Invalid token"
  | some payload =>
      let sub? : Option JVal :=
        match jget? payload "sub" with
        | some .jnull => none
        | other => other
      match sub? with
      | none => .unauthorized "Token missing user ID"
      | some sv =>
          match jgetD payload "type" (.jstr "user") with
          | .jstr s =>
              if s = "user" then
                if userFound then .ok sv else .unauthorized "User not found"
              else .unauthorized "Invalid token type for user access"
          | _ => .unauthorized "Invalid token type for user access"

/-- `get_current_admin_user` (auth/dependencies.py lines 97-141), symmetric to
`getCurrentUser` with required type `"admin"`. -/
def getCurrentAdminUser (payload? : Option (List (String × JVal))) (adminFound : Bool) :
    GuardResult :=
  match payload? with
  | none => .unauthorized "Invalid token"
  | some payload =>
      let sub? : Option JVal :=
        match jget? payload "sub" with
        | some .jnull => none
        | other => other
      match sub? with
      | none => .unauthorized "Token missing admin user ID"
      | some sv =>
          match jgetD payload "type" (.jstr "user") with
          | .jstr s =>
              if s = "admin" then
                if adminFound then .ok sv else .unauthorized "Admin user not found"
              else .unauthorized "Invalid token type for admin access"
          | _ => .unauthorized "Invalid token type for admin access"

/-- `PUBLIC_ROUTES` (auth/middleware.py lines 17-27). -/
def PUBLIC_ROUTES : List String :=
  ["/", "/health", "/docs", "/redoc", "/openapi.json",
   "/api/v1/auth/login", "/api/v1/auth/register", "/api/v1/auth/refresh",
   "/api/v1/chat/webhook"]

/-- `ADMIN_ROUTES` (auth/middleware.py lines 30-38). -/
def ADMIN_ROUTES : List String :=
  ["/api/v1/admin", "/api/v1/ventures", "/api/v1/analytics", "/api/v1/knowledge-base",
   "/api/v1/extraction-schemas", "/api/v1/system-settings", "/api/v1/audit-log"]

/-- `AuthMiddleware._is_public_route` (auth/middleware.py lines 95-111): exact
membership in `PUBLIC_ROUTES`, or a match of the anchored patterns
`^/static/.*` and `^/api/v1/chat/widget/.*`. -/
def isPublicRoute (path : String) : Bool :=
  PUBLIC_ROUTES.any (fun r => r == path)
  || strStartsWith path "/static/"
  || strStartsWith path "/api/v1/chat/widget/"

/-- `AuthMiddleware._is_admin_route` (auth/middleware.py lines 113-118). -/
def isAdminRoute (path : String) : Bool :=
  ADMIN_ROUTES.any (fun p => strStartsWith path p)

/-- `AuthMiddleware._extract_token` (auth/middleware.py lines 120-130). -/
def extractToken (authorization : Option String) : Option String :=
  match authorization with
  | none => none
  | some a => if strStartsWith a "Bearer " then some (a.drop 7) else none

/-- Outcome of `AuthMiddleware.dispatch`: either the request reaches
`call_next`, or the middleware raises an `HTTPException`. -/
inductive MwResult where
  | next
  | httpError (status : Nat) (detail : String)
  deriving Repr, DecidableEq

/-- `AuthMiddleware.dispatch` (auth/middleware.py lines 44-93).  `verifyOutcome`
abstracts `verify_token` together with the payload reads (`none` = the
verification raised, collapsed by the middleware's handlers into a 401; the
claims proved here only exercise the public-route and missing-token branches). -/
def authDispatch (path : String) (authorization : Option String)
    (verifyOutcome : String → Option (List (String × JVal))) : MwResult :=
  if isPublicRoute path then .next
  else
    match extractToken authorization with
    | none => .httpError 401 "Authentication required"
    | some token =>
        match verifyOutcome token with
        | none => .httpError 401 "Invalid authentication credentials"
        | some payload =>
            let user_type := jgetD payload "user_type" (.jstr "user")
            let isAdminType : Bool :=
              match user_type with
              | .jstr s => s = "admin"
              | _ => false
            if isAdminRoute path && !isAdminType then
              .httpError 403 "Admin access required"
            else .next

/-- The mount path of the widget chat route: main.py line 67 includes the router
at `"/api/" + settings.API_VERSION` with `API_VERSION = "v1"` (config.py line 54),
and router.py line 371 declares `POST /widget/chat`. -/
def widgetChatPath : String := "/api/v1/widget/chat"

/-- A persisted Conversation row (database/models.py lines 59-78), reduced to the
columns the chat endpoint reads. -/
structure ConvRow where
  id : Nat
  user_id : Nat
  deriving Repr, DecidableEq

/-- A persisted Message row (database/models.py lines 81-101), reduced likewise. -/
structure MsgRow where
  conversation_id : Nat
  role : String
  content : String
  metadata : List (String × JVal)
  deriving Repr

/-- A persisted Meeting row (database/models.py lines 132-155), reduced to its
ownership links. -/
structure MeetingRow where
  user_id : Nat
  conversation_id : Nat
  deriving Repr, DecidableEq

/-- A persisted Venture row (database/models.py lines 104-129), reduced to its
ownership links and score. -/
structure VentureRow where
  user_id : Nat
  conversation_id : Nat
  score : JVal
  deriving Repr

/-- The slice of the relational store the chat endpoint touches; list order is
creation order. -/
structure DB where
  convs : List ConvRow
  msgs : List MsgRow
  meetings : List MeetingRow
  ventures : List VentureRow
  deriving Repr

/-- Modelled from the spec: `conversations.get_conversation`
(api/v1/endpoints/conversations.py is not among the sources) — step 1 of the
chat pipeline "look it up scoped to the caller's user id". -/
def getConversation (conversation_id user_id : Nat) (db : DB) : Option ConvRow :=
  db.convs.find? (fun c => c.id == conversation_id && c.user_id == user_id)

/-- Modelled from the spec: `conversations.create_conversation` — "otherwise
create a new Conversation"; the generated id is supplied as `freshId`. -/
def createConversation (user_id freshId : Nat) (db : DB) : ConvRow × DB :=
  let c : ConvRow := { id := freshId, user_id := user_id }
  (c, { db with convs := db.convs ++ [c] })

/-- Modelled from the spec: `messages.get_conversation_messages` — "load the
Conversation's prior Messages in creation order". -/
def getConversationMessages (conversation_id : Nat) (db : DB) : List MsgRow :=
  db.msgs.filter (fun m => m.conversation_id == conversation_id)

/-- Modelled from the spec: `messages.create_message` — persists one message;
`ok = false` models a raised persistence error ("both writes must succeed or the
response is not returned as successful"), in which case nothing is committed. -/
def createMessage (conversation_id : Nat) (role content : String)
    (metadata : List (String × JVal)) (ok : Bool) (db : DB) : Option DB :=
  if ok then
    some { db with msgs := db.msgs ++ [{ conversation_id := conversation_id,
                                         role := role, content := content,
                                         metadata := metadata }] }
  else none

/-- Modelled from the spec: `meetings.create_meeting_request` — "create a Meeting
row linked to the caller and Conversation"; `ok = false` models a raised error. -/
def createMeetingRequest (user_id conversation_id : Nat) (ok : Bool) (db : DB) :
    Option (MeetingRow × DB) :=
  if ok then
    let m : MeetingRow := { user_id := user_id, conversation_id := conversation_id }
    some (m, { db with meetings := db.meetings ++ [m] })
  else none

/-- Modelled from the spec: `ventures.update_venture_from_analysis` — "upsert a
Venture row for the caller (create if none exists for this conversation, else
update fields) from the analysis result"; `ok = false` models a raised error. -/
def updateVentureFromAnalysis (user_id conversation_id : Nat)
    (analysis : VentureAnalysis) (ok : Bool) (db : DB) : Option (VentureRow × DB) :=
  if ok then
    let v : VentureRow := { user_id := user_id, conversation_id := conversation_id,
                            score := analysis.score }
    match db.ventures.find? (fun w => w.conversation_id == conversation_id) with
    | some _ =>
        let updated := db.ventures.map
          (fun w => if w.conversation_id == conversation_id then v else w)
        some (v, { db with ventures := updated })
    | none => some (v, { db with ventures := db.ventures ++ [v] })
  else none

/-- A raised Python exception as the chat endpoint's `except Exception` sees it:
FastAPI's `HTTPException` derives from `Exception`, so the inner
`raise HTTPException(404, ...)` is caught by the same handler as any other
error.  `str(HTTPException(s, d))` is `"s: d"` (starlette); a non-HTTP exception
carries its own message. -/
inductive PyExc where
  | httpExc (status : Nat) (detail : String)
  | other (msg : String)
  deriving Repr, DecidableEq

/-- Python `str(e)` for the modelled exceptions. -/
def pyExcStr : PyExc → String
  | .httpExc status detail => toString status ++ ": " ++ detail
  | .other msg => msg

/-- The successful chat response body (router.py lines 240-248), reduced to the
fields the claims mention. -/
structure ChatResponse where
  response : String
  conversation_id : Nat
  extracted_data : List (String × JVal)
  venture_data : Option VentureRow
  meeting_request : Option MeetingRow
  deriving Repr

/-- Observable outcome of the chat endpoint: a success body plus the committed
store, or an `HTTPException` surfaced to the client. -/
inductive ChatResult where
  | ok (resp : ChatResponse) (db : DB)
  | httpError (status : Nat) (detail : String)
  deriving Repr

/-- Is the chat outcome a success? -/
def chatOk : ChatResult → Bool
  | .ok _ _ => true
  | .httpError _ _ => false

/-- Is an inner pipeline outcome a success (no exception raised)? -/
def exceptOk : Except PyExc (ChatResponse × DB) → Bool
  | .ok _ => true
  | .error _ => false

/-- The meeting block and response assembly of `chat_endpoint` (router.py lines
231-248): `if meeting_request.requested:` create the Meeting row — with no
`try/except` of its own — then return the response dict. -/
def meetingBlock (user_id : Nat) (conversation : ConvRow) (ai_response : String)
    (extracted_data : List (String × JVal)) (venture_data : Option VentureRow)
    (meeting_request : MeetingReq) (meetingOk : Bool) (db4 : DB) :
    Except PyExc (ChatResponse × DB) :=
  let meetingStep : Except PyExc (Option MeetingRow × DB) :=
    if jTruthy meeting_request.requested then
      match createMeetingRequest user_id conversation.id meetingOk db4 with
      | none => .error (.other "DatabaseError")
      | some (m, db5) => .ok (some m, db5)
    else .ok (none, db4)
  match meetingStep with
  | .error e => .error e
  | .ok (meeting_data, db5) =>
      .ok ({ response := ai_response,
             conversation_id := conversation.id,
             extracted_data := extracted_data,
             venture_data := venture_data,
             meeting_request := meeting_data }, db5)

/-- Steps 5-7 of `chat_endpoint` (router.py lines 210-248): the venture block
(lines 212-228, guarded by its own `try/except` that logs and continues) followed
by the meeting block.  `analysis` is the value `analyze_venture` would return —
computed lazily in the source, but the model-call oracle is pure, so passing it
eagerly is equivalent. -/
def chatTail (user_id : Nat) (conversation : ConvRow) (ai_response : String)
    (extracted_data : List (String × JVal)) (meeting_request : MeetingReq)
    (analysis : VentureAnalysis) (ventureOk meetingOk : Bool) (db3 : DB) :
    Except PyExc (ChatResponse × DB) :=
  -- Step 6: venture processing (extracted_data.get("intent") == "venture_discussion")
  let ventureStep : Option VentureRow × DB :=
    if (match jget? extracted_data "intent" with
        | some (.jstr s) => s == "venture_discussion"
        | _ => false) then
      match updateVentureFromAnalysis user_id conversation.id analysis ventureOk db3 with
      | some (v, db') => (some v, db')
      | none => (none, db3)  -- logged, chat continues
    else (none, db3)
  match ventureStep with
  | (venture_data, db4) =>
      meetingBlock user_id conversation ai_response extracted_data venture_data
        meeting_request meetingOk db4

/-- Body of the `try` block of `chat_endpoint` (router.py lines 128-248).  Oracles
and failure injection: `modelResult` / `meetingModelResult` /
`ventureModelResult` are the three Claude calls' outcomes, `parseObj` is
`json.loads`, `persistUserOk` / `persistAiOk` / `ventureOk` / `meetingOk` say
whether each persistence call raises.  An inner `PyExc` error propagates to the
endpoint's `except Exception` handler. -/
def chatEndpointInner (message : String) (conversation_id? : Option Nat)
    (user_id : Nat) (company : Option String) (db : DB)
    (modelResult meetingModelResult ventureModelResult : Except Unit String)
    (parseObj : String → Option (List (String × JVal)))
    (persistUserOk persistAiOk ventureOk meetingOk : Bool) (freshConvId : Nat) :
    Except PyExc (ChatResponse × DB) :=
  -- Step 1: get or create conversation
  let step1 : Except PyExc (ConvRow × DB) :=
    match conversation_id? with
    | some cid =>
        match getConversation cid user_id db with
        | none => .error (.httpExc 404 "Conversation not found")
        | some c => .ok (c, db)
    | none => .ok (createConversation user_id freshConvId db)
  match step1 with
  | .error e => .error e
  | .ok (conversation, db1) =>
      -- Step 2: history plus the new inbound turn (in memory only)
      let history := getConversationMessages conversation.id db1
      let formatted := history.map (fun m => (m.role, m.content)) ++ [("user", message)]
      -- Step 3: AI reply
      let gen := generateResponse formatted modelResult company
      let ai_response := gen.1
      let extracted_data := gen.2
      -- Step 4: persist both messages (required)
      match createMessage conversation.id "user" message [] persistUserOk db1 with
      | none => .error (.other "DatabaseError")
      | some db2 =>
          match createMessage conversation.id "assistant" ai_response extracted_data
              persistAiOk db2 with
          | none => .error (.other "DatabaseError")
          | some db3 =>
              -- Steps 5-7: meeting detection (never raises by its own contract),
              -- venture block, meeting block, response assembly
              chatTail user_id conversation ai_response extracted_data
                (detectMeetingRequest parseObj meetingModelResult)
                (analyzeVenture parseObj formatted ventureModelResult company)
                ventureOk meetingOk db3

/-- The `except Exception` wrapper of `chat_endpoint` (router.py lines 250-254):
any exception raised by the `try` body — the inner 404 `HTTPException`
included — is re-raised as `HTTPException(500, f"Error processing chat message:
&~str(e)&~")`. -/
def wrapResult : Except PyExc (ChatResponse × DB) → ChatResult
  | .ok (resp, db') => .ok resp db'
  | .error e => .httpError 500 ("Error processing chat message: " ++ pyExcStr e)

/-- `chat_endpoint` (router.py lines 117-254): the `try` body wrapped by the
catch-all handler. -/
def chatEndpoint (message : String) (conversation_id? : Option Nat)
    (user_id : Nat) (company : Option String) (db : DB)
    (modelResult meetingModelResult ventureModelResult : Except Unit String)
    (parseObj : String → Option (List (String × JVal)))
    (persistUserOk persistAiOk ventureOk meetingOk : Bool) (freshConvId : Nat) :
    ChatResult :=
  wrapResult (chatEndpointInner message conversation_id? user_id company db
    modelResult meetingModelResult ventureModelResult parseObj
    persistUserOk persistAiOk ventureOk meetingOk freshConvId)

/-- Whether step 1 of the chat pipeline (conversation resolution) succeeds. -/
def conversationResolves (conversation_id? : Option Nat) (user_id : Nat) (db : DB) :
    Bool :=
  match conversation_id? with
  | some cid => (getConversation cid user_id db).isSome
  | none => true

/-- The invariant claimed for venture scores: an integer in `[1, 100]`. -/
def scoreInRange (v : JVal) : Prop :=
  ∃ n : Int, v = .jnum n ∧ 1 ≤ n ∧ n ≤ 100

/-- Shorthand for "the chat outcome committed no new Meeting row and reported
none": holds of an error outcome vacuously (nothing is committed). -/
def noMeetingCreated (res : ChatResult) (orig : List MeetingRow) : Prop :=
  match res with
  | .ok resp db' => db'.meetings = orig ∧ resp.meeting_request = none
  | .httpError _ _ => True

/-- Setting a key makes it readable back. -/
theorem jget?_dictSet_self (d : List (String × JVal)) (k : String) (v : JVal) :
    jget? (dictSet d k v) k = some v := by
  induction d with
  | nil => simp [dictSet, jget?]
  | cons hd tl ih =>
      rcases hd with ⟨ka, va⟩
      by_cases hk : ka = k
      · subst hk; simp [dictSet, jget?]
      · simp [dictSet, hk, jget?, ih]

/-- Setting one key leaves every other key unchanged. -/
theorem jget?_dictSet_ne (d : List (String × JVal)) (k k' : String) (v : JVal)
    (h : k ≠ k') : jget? (dictSet d k v) k' = jget? d k' := by
  induction d with
  | nil => simp [dictSet, jget?, h]
  | cons hd tl ih =>
      rcases hd with ⟨ka, va⟩
      by_cases hk : ka = k
      · subst hk; simp [dictSet, jget?, h]
      · simp [dictSet, hk, jget?, ih]

/-- The entity block touches only the "entities" key. -/
theorem jget?_entityStep_ne (text_lower : String) (company : Option String)
    (d : List (String × JVal)) (k : String) (hk : k ≠ "entities") :
    jget? (entityStep text_lower company d) k = jget? d k := by
  unfold entityStep
  rcases company with _ | c
  · rfl
  · by_cases hc : c = ""
    · simp [hc]
    · by_cases hs : strContains text_lower (lowerStr c)
      · simp only [hc, hs, if_true, if_false, ite_true, ite_false]
        exact jget?_dictSet_ne d "entities" k _ (fun hh => hk hh.symm)
      · simp [hc, hs]

/-- C1: for every list of conversation turns and every context, if the external
model call inside `generate_response` fails for any reason, the method does not
raise to its caller (it is a total function here) and returns exactly the pair
of the fixed fallback apology string and the empty extraction map. -/
theorem C1_generate_response_failure_returns_fallback_and_empty_map
    (messages : List (String × String)) (company : Option String) (e : Unit) :
    generateResponse messages (.error e) company = (fallbackResponse, []) := rfl

/-- C4 (code evaluated at the failing input): the widget chat route
`/api/v1/widget/chat` is not recognised as public by `AuthMiddleware`
(the middleware's pattern is `/api/v1/chat/widget/.*`, with the segments in the
opposite order), so a request without an `Authorization` header is rejected with
401 "Authentication required" and never reaches the `widget_chat` handler;
the mis-ordered pattern itself is public. -/
theorem C4_widget_chat_rejected_without_token :
    isPublicRoute widgetChatPath = false
    ∧ authDispatch widgetChatPath none (fun _ => none)
        = .httpError 401 "Authentication required"
    ∧ isPublicRoute "/api/v1/chat/widget/anything" = true :=
  ⟨rfl, rfl, rfl⟩

/-- C5 (counterexample): the refresh token issued by `POST /auth/login` is an
issued token whose payload's `"type"` discriminator is `"refresh"` — neither
`"user"` nor `"admin"` — because `create_refresh_token` overwrites the `"type"`
entry of the data it is given. -/
theorem C5_cex_refresh_token_discriminator :
    jget? (loginTokens "user-1" 1 2).2 "type" = some (.jstr "refresh")
    ∧ JVal.jstr "refresh" ≠ .jstr "user"
    ∧ JVal.jstr "refresh" ≠ .jstr "admin" := by
  refine ⟨rfl, ?_, ?_⟩ <;> · intro h; injection h with h'; exact absurd h' (by decide)

/-- C5 (amended): access tokens issued by register/login carry the subject id and
type `"user"`, admin-login access tokens carry type `"admin"`, while refresh
tokens carry type `"refresh"`; the user guard rejects any payload whose type
discriminator is `"admin"` and the admin guard rejects any payload whose type
discriminator is `"user"`. -/
theorem C5_token_type_discipline :
    (∀ uid a r, jget? (loginTokens uid a r).1 "sub" = some (.jstr uid)
      ∧ jget? (loginTokens uid a r).1 "type" = some (.jstr "user"))
    ∧ (∀ aid a r, jget? (adminLoginTokens aid a r).1 "sub" = some (.jstr aid)
      ∧ jget? (adminLoginTokens aid a r).1 "type" = some (.jstr "admin"))
    ∧ (∀ uid a r, jget? (loginTokens uid a r).2 "type" = some (.jstr "refresh")
      ∧ jget? (adminLoginTokens uid a r).2 "type" = some (.jstr "refresh"))
    ∧ (∀ payload found, jgetD payload "type" (.jstr "user") = .jstr "admin" →
        guardAccepts (getCurrentUser (some payload) found) = false)
    ∧ (∀ payload found, jgetD payload "type" (.jstr "user") = .jstr "user" →
        guardAccepts (getCurrentAdminUser (some payload) found) = false) := by
  refine ⟨fun uid a r => ⟨rfl, rfl⟩, fun aid a r => ⟨rfl, rfl⟩,
    fun uid a r => ⟨rfl, rfl⟩, ?_, ?_⟩
  · intro payload found h
    unfold getCurrentUser
    rcases hs : jget? payload "sub" with _ | v
    · simp [hs, guardAccepts]
    · rcases v <;> simp [hs, h, guardAccepts]
  · intro payload found h
    unfold getCurrentAdminUser
    rcases hs : jget? payload "sub" with _ | v
    · simp [hs, guardAccepts]
    · rcases v <;> simp [hs, h, guardAccepts]

/-- C5 (witness): the guard halves of the amended claim applied to concrete
payloads. -/
theorem C5_token_type_discipline_witness :
    guardAccepts (getCurrentUser
        (some [("sub", .jstr "u1"), ("type", .jstr "admin")]) true) = false
    ∧ guardAccepts (getCurrentAdminUser
        (some [("sub", .jstr "a1"), ("type", .jstr "user")]) true) = false :=
  ⟨C5_token_type_discipline.2.2.2.1 [("sub", .jstr "u1"), ("type", .jstr "admin")] true rfl,
   C5_token_type_discipline.2.2.2.2 [("sub", .jstr "a1"), ("type", .jstr "user")] true rfl⟩

/-- Shared helper: a reply without a parseable span yields the default
analysis. -/
theorem analyzeVentureReply_default
    (parseObj : String → Option (List (String × JVal))) (reply : String)
    (h : ∀ sub, jsonSpan reply = some sub → parseObj sub = none) :
    analyzeVentureReply parseObj reply = defaultVentureAnalysis := by
  unfold analyzeVentureReply
  rcases hs : jsonSpan reply with _ | sub
  · rfl
  · simp [h sub hs]

/-- C7: for every model reply with no parseable JSON span — no `&~...&~` braces,
malformed order, or a `json.loads` error on the extracted slice —
`analyze_venture` returns the documented default `VentureAnalysis` (score 50,
stage "idea", concerns containing "Incomplete information"); as a total Lean
function it never raises. -/
theorem C7_analyze_venture_default_on_unparseable
    (parseObj : String → Option (List (String × JVal))) (reply : String)
    (h : ∀ sub, jsonSpan reply = some sub → parseObj sub = none) :
    analyzeVentureReply parseObj reply = defaultVentureAnalysis
    ∧ defaultVentureAnalysis.score = .jnum 50
    ∧ defaultVentureAnalysis.stage = .jstr "idea"
    ∧ defaultVentureAnalysis.concerns = .jarr [.jstr "Incomplete information"] :=
  ⟨analyzeVentureReply_default parseObj reply h, rfl, rfl, rfl⟩

/-- C7 (witness): the theorem applied to a reply with no braces and the parser
that always fails. -/
theorem C7_analyze_venture_default_witness :
    analyzeVentureReply (fun _ => none) "The analysis is pending." = defaultVentureAnalysis :=
  (C7_analyze_venture_default_on_unparseable (fun _ => none) "The analysis is pending."
    (fun _ _ => rfl)).1

/-- C6 (counterexample): a reply containing "schedule" together with a venture
keyword ("product") gets `meeting_request = true` but, because the venture
branch runs after the meeting branch and overwrites `intent`, its intent is
"venture_discussion", not "meeting_scheduling". -/
theorem C6_cex_schedule_with_venture_keyword :
    jgetD (extractStructuredData "Let us schedule your product demo" [] none)
        "meeting_request" .jnull = .jbool true
    ∧ jgetD (extractStructuredData "Let us schedule your product demo" [] none)
        "intent" .jnull = .jstr "venture_discussion"
    ∧ JVal.jstr "venture_discussion" ≠ .jstr "meeting_scheduling" := by
  refine ⟨rfl, rfl, ?_⟩
  intro h; injection h with h'; exact absurd h' (by decide)

/-- C6 (amended): for every model reply containing the keyword "schedule"
(case-insensitive), the extraction map has `meeting_request = true`; its intent
is "meeting_scheduling" when no venture keyword (company, startup, business,
product, market) occurs in the reply, and "venture_discussion" otherwise. -/
theorem C6_schedule_sets_meeting_fields (reply : String)
    (msgs : List (String × String)) (company : Option String)
    (h : strContains (lowerStr reply) "schedule" = true) :
    jgetD (extractStructuredData reply msgs company) "meeting_request" .jnull = .jbool true
    ∧ (venture_keywords.any (fun kw => strContains (lowerStr reply) kw) = false →
        jgetD (extractStructuredData reply msgs company) "intent" .jnull
          = .jstr "meeting_scheduling")
    ∧ (venture_keywords.any (fun kw => strContains (lowerStr reply) kw) = true →
        jgetD (extractStructuredData reply msgs company) "intent" .jnull
          = .jstr "venture_discussion") := by
  have hm : meeting_keywords.any (fun kw => strContains (lowerStr reply) kw) = true := by
    simp only [meeting_keywords, List.any_cons, List.any_nil, h, Bool.true_or,
      Bool.or_true, Bool.or_false]
  have hmr : ∀ d, jget? (meetingKeywordStep (lowerStr reply) d) "meeting_request"
      = some (.jbool true) := by
    intro d
    unfold meetingKeywordStep
    rw [hm]
    simp only [if_true, ite_true]
    rw [jget?_dictSet_ne _ "intent" "meeting_request" _ (by decide)]
    exact jget?_dictSet_self d "meeting_request" (.jbool true)
  unfold extractStructuredData
  refine ⟨?_, ?_, ?_⟩
  · rw [jgetD, jget?_entityStep_ne _ _ _ _ (by decide)]
    unfold ventureKeywordStep
    rcases hv : venture_keywords.any (fun kw => strContains (lowerStr reply) kw)
    · simp only [Bool.false_eq_true, if_false, ite_false]
      rw [hmr baseExtractedData]
      rfl
    · simp only [if_true, ite_true]
      rw [jget?_dictSet_ne _ "intent" "meeting_request" _ (by decide)]
      rw [hmr baseExtractedData]
      rfl
  · intro hv
    rw [jgetD, jget?_entityStep_ne _ _ _ _ (by decide)]
    unfold ventureKeywordStep
    rw [hv]
    simp only [Bool.false_eq_true, if_false, ite_false]
    unfold meetingKeywordStep
    rw [hm]
    simp only [if_true, ite_true]
    rw [jget?_dictSet_self]
    rfl
  · intro hv
    rw [jgetD, jget?_entityStep_ne _ _ _ _ (by decide)]
    unfold ventureKeywordStep
    rw [hv]
    simp only [if_true, ite_true]
    rw [jget?_dictSet_self]
    rfl

/-- C6 (witness): the amended claim applied to a reply containing "schedule" and
no venture keyword. -/
theorem C6_schedule_sets_meeting_fields_witness :
    jgetD (extractStructuredData "We can schedule a chat" [] none)
        "meeting_request" .jnull = .jbool true
    ∧ jgetD (extractStructuredData "We can schedule a chat" [] none)
        "intent" .jnull = .jstr "meeting_scheduling" :=
  ⟨(C6_schedule_sets_meeting_fields "We can schedule a chat" [] none rfl).1,
   (C6_schedule_sets_meeting_fields "We can schedule a chat" [] none rfl).2.1 rfl⟩

/-- C8 (counterexample): on the reply `&~&~` (an empty JSON object, which parses
successfully), the missing fields do not fall back to the parse-failure
defaults: the name becomes "Unknown Venture" (not "Healthcare Venture") and the
concerns list is empty (not `["Incomplete information"]`). -/
theorem C8_cex_empty_object_field_defaults :
    (analyzeVentureReply (fun s => if s = "\x7b\x7d" then some [] else none)
        "\x7b\x7d").name = .jstr "Unknown Venture"
    ∧ (analyzeVentureReply (fun s => if s = "\x7b\x7d" then some [] else none)
        "\x7b\x7d").concerns = .jarr []
    ∧ JVal.jstr "Unknown Venture" ≠ .jstr "Healthcare Venture"
    ∧ JVal.jarr [] ≠ .jarr [.jstr "Incomplete information"] := by
  refine ⟨rfl, rfl, ?_, ?_⟩
  · intro h; injection h with h'; exact absurd h' (by decide)
  · intro h; injection h with h'; exact absurd h' (by simp)

/-- C8 (amended): when the brace-delimited substring parses as a JSON object, a
missing field falls back to the per-field defaults of the parse-success branch —
name "Unknown Venture", stage "idea", score 50, concerns `[]` — which agree with
the parse-failure defaults on stage and score but not on name and concerns. -/
theorem C8_parse_success_field_defaults
    (parseObj : String → Option (List (String × JVal))) (reply sub : String)
    (fields : List (String × JVal))
    (hspan : jsonSpan reply = some sub) (hparse : parseObj sub = some fields) :
    analyzeVentureReply parseObj reply = ventureFromFields fields
    ∧ (jget? fields "name" = none →
        (ventureFromFields fields).name = .jstr "Unknown Venture")
    ∧ (jget? fields "stage" = none → (ventureFromFields fields).stage = .jstr "idea")
    ∧ (jget? fields "score" = none → (ventureFromFields fields).score = .jnum 50)
    ∧ (jget? fields "concerns" = none →
        (ventureFromFields fields).concerns = .jarr []) := by
  refine ⟨?_, ?_, ?_, ?_, ?_⟩
  · unfold analyzeVentureReply; rw [hspan]; simp [hparse]
  all_goals intro h; simp [ventureFromFields, jgetD, h]

/-- C8 (witness): the amended claim applied to the empty JSON object. -/
theorem C8_parse_success_field_defaults_witness :
    analyzeVentureReply (fun s => if s = "\x7b\x7d" then some [] else none) "\x7b\x7d"
      = ventureFromFields []
    ∧ (ventureFromFields []).name = .jstr "Unknown Venture"
    ∧ (ventureFromFields []).stage = .jstr "idea"
    ∧ (ventureFromFields []).score = .jnum 50
    ∧ (ventureFromFields []).concerns = .jarr [] := by
  have h := C8_parse_success_field_defaults
    (fun s => if s = "\x7b\x7d" then some [] else none) "\x7b\x7d" "\x7b\x7d" [] rfl rfl
  exact ⟨h.1, h.2.1 rfl, h.2.2.1 rfl, h.2.2.2.1 rfl, h.2.2.2.2 rfl⟩

/-- C9 (counterexample): a model reply whose JSON carries `"score": 200` yields a
`VentureAnalysis` whose score is 200, outside `[1, 100]` — neither
`analyze_venture` nor the schema clamps the value. -/
theorem C9_cex_score_unclamped :
    (analyzeVentureReply
        (fun s => if s = "\x7bscore\x7d" then some [("score", .jnum 200)] else none)
        "\x7bscore\x7d").score = .jnum 200
    ∧ ¬ scoreInRange
        (analyzeVentureReply
          (fun s => if s = "\x7bscore\x7d" then some [("score", .jnum 200)] else none)
          "\x7bscore\x7d").score := by
  refine ⟨rfl, ?_⟩
  rintro ⟨n, hn, h1, h2⟩
  have : (200 : Int) = n := by
    have hx : JVal.jnum 200 = .jnum n := by rw [← hn]; rfl
    injection hx
  omega

/-- C9 (amended): the score defaults to 50 — inside `[1, 100]` — whenever the
reply is unparseable or the `score` field is missing, but a present score is
copied from the model's JSON without range validation (and the spec-modelled
venture upsert stores it verbatim), so the invariant holds only when the
model's value is itself in range. -/
theorem C9_score_in_range_only_by_default
    (parseObj : String → Option (List (String × JVal))) (reply : String)
    (fields : List (String × JVal)) (n : Int) :
    ((∀ sub, jsonSpan reply = some sub → parseObj sub = none) →
        scoreInRange (analyzeVentureReply parseObj reply).score)
    ∧ (jget? fields "score" = none → scoreInRange (ventureFromFields fields).score)
    ∧ (jget? fields "score" = some (.jnum n) →
        (ventureFromFields fields).score = .jnum n)
    ∧ (∀ uid cid a ok db v db',
        updateVentureFromAnalysis uid cid a ok db = some (v, db') →
        v.score = a.score) := by
  refine ⟨?_, ?_, ?_, ?_⟩
  · intro h
    rw [analyzeVentureReply_default parseObj reply h]
    exact ⟨50, rfl, by norm_num, by norm_num⟩
  · intro h
    refine ⟨50, ?_, by norm_num, by norm_num⟩
    simp [ventureFromFields, jgetD, h]
  · intro h
    simp [ventureFromFields, jgetD, h]
  · intro uid cid a ok db v db' hupd
    rcases ok with _ | _
    · simp [updateVentureFromAnalysis] at hupd
    · unfold updateVentureFromAnalysis at hupd
      rcases hf : db.ventures.find? (fun w => w.conversation_id == cid) with _ | w <;>
        simp [hf] at hupd <;> rw [← hupd.1]

/-- C9 (witness): the amended claim at concrete inputs — an unparseable reply
gives score 50, a missing field gives score 50, a present score of 42 is copied,
and the upsert stores the analysis score. -/
theorem C9_score_in_range_only_by_default_witness :
    scoreInRange (analyzeVentureReply (fun _ => none) "no braces at all").score
    ∧ scoreInRange (ventureFromFields []).score
    ∧ (ventureFromFields [("score", .jnum 42)]).score = .jnum 42 := by
  have h := C9_score_in_range_only_by_default (fun _ => none) "no braces at all"
    [("score", .jnum 42)] 42
  have h2 := C9_score_in_range_only_by_default (fun _ => none) "no braces at all"
    ([] : List (String × JVal)) 42
  exact ⟨h.1 (fun _ _ => rfl), h2.2.1 rfl, h.2.2.1 rfl⟩

/-- C2 (code evaluated at the failing input): a chat request by user 1 naming
conversation 7, which belongs to user 2, is rejected — no data of the other
user is returned — but with HTTP 500, not 404: the inner
`HTTPException(404, "Conversation not found")` is an `Exception`, so the
endpoint's own `except Exception` handler swallows it and re-raises
`HTTPException(500, "Error processing chat message: 404: Conversation not
found")`. -/
theorem C2_foreign_conversation_wrapped_as_500 :
    chatEndpoint "hello" (some 7) 1 none
        { convs := [{ id := 7, user_id := 2 }], msgs := [], meetings := [], ventures := [] }
        (.error ()) (.error ()) (.error ()) (fun _ => none) true true true true 99
      = .httpError 500 "Error processing chat message: 404: Conversation not found"
    ∧ chatOk (chatEndpoint "hello" (some 7) 1 none
        { convs := [{ id := 7, user_id := 2 }], msgs := [], meetings := [], ventures := [] }
        (.error ()) (.error ()) (.error ()) (fun _ => none) true true true true 99)
      = false :=
  ⟨rfl, rfl⟩

/-- C3 (counterexample): a request in which steps 1-4 all succeed (fresh
conversation, model reply delivered, both messages persisted) still fails with a
500 when the meeting-creation call raises, because unlike the venture block the
meeting block has no try/except of its own; the identical request with a healthy
meeting store succeeds. -/
theorem C3_cex_meeting_creation_failure_fails_request :
    chatEndpoint "hello there" none 1 none { convs := [], msgs := [], meetings := [], ventures := [] }
        (.ok "A fine reply.") (.ok "\x7bR\x7d") (.error ())
        (fun s => if s = "\x7bR\x7d" then some [("requested", .jbool true)] else none)
        true true true false 5
      = .httpError 500 "Error processing chat message: DatabaseError"
    ∧ chatOk (chatEndpoint "hello there" none 1 none
        { convs := [], msgs := [], meetings := [], ventures := [] }
        (.ok "A fine reply.") (.ok "\x7bR\x7d") (.error ())
        (fun s => if s = "\x7bR\x7d" then some [("requested", .jbool true)] else none)
        true true true true 5)
      = true :=
  ⟨rfl, rfl⟩

/-- The endpoint's wrapper turns inner success into success and any inner
exception into a 500. -/
theorem chatOk_wrap (r : Except PyExc (ChatResponse × DB)) :
    chatOk (wrapResult r) = exceptOk r := by
  rcases r with e | ⟨resp, db'⟩ <;> rfl

/-- The meeting block succeeds iff no meeting is requested or the Meeting write
succeeds. -/
theorem meetingBlock_isOk (user_id : Nat) (conversation : ConvRow)
    (ai_response : String) (extracted_data : List (String × JVal))
    (venture_data : Option VentureRow) (mr : MeetingReq) (meetingOk : Bool)
    (db4 : DB) :
    exceptOk (meetingBlock user_id conversation ai_response extracted_data
        venture_data mr meetingOk db4)
    = (!jTruthy mr.requested || meetingOk) := by
  unfold meetingBlock
  rcases hreq : jTruthy mr.requested
  · simp [hreq, exceptOk]
  · rcases meetingOk <;> simp [hreq, createMeetingRequest, exceptOk]

/-- When no meeting is requested, the meeting block commits nothing and reports
no meeting. -/
theorem meetingBlock_no_meeting (user_id : Nat) (conversation : ConvRow)
    (ai_response : String) (extracted_data : List (String × JVal))
    (venture_data : Option VentureRow) (mr : MeetingReq) (meetingOk : Bool)
    (db4 : DB) (h : jTruthy mr.requested = false) :
    meetingBlock user_id conversation ai_response extracted_data venture_data
        mr meetingOk db4
      = .ok ({ response := ai_response, conversation_id := conversation.id,
               extracted_data := extracted_data, venture_data := venture_data,
               meeting_request := none }, db4) := by
  simp [meetingBlock, h]

/-- The venture upsert never touches the meetings table. -/
theorem updateVenture_preserves_meetings (user_id cid : Nat)
    (a : VentureAnalysis) (ok : Bool) (db : DB) (v : VentureRow) (db' : DB)
    (h : updateVentureFromAnalysis user_id cid a ok db = some (v, db')) :
    db'.meetings = db.meetings := by
  rcases ok
  · simp [updateVentureFromAnalysis] at h
  · unfold updateVentureFromAnalysis at h
    rcases hf : db.ventures.find? (fun w => w.conversation_id == cid) with _ | w
    · rw [hf] at h
      simp only [if_true, ite_true, Option.some.injEq, Prod.mk.injEq] at h
      rw [← h.2]
    · rw [hf] at h
      simp only [if_true, ite_true, Option.some.injEq, Prod.mk.injEq] at h
      rw [← h.2]

/-- The chat tail (venture block then meeting block) succeeds iff the meeting
block does, whatever the venture step did. -/
theorem chatTail_isOk (user_id : Nat) (conversation : ConvRow)
    (ai_response : String) (extracted_data : List (String × JVal))
    (mr : MeetingReq) (an : VentureAnalysis) (ventureOk meetingOk : Bool)
    (db3 : DB) :
    exceptOk (chatTail user_id conversation ai_response extracted_data mr an
        ventureOk meetingOk db3)
    = (!jTruthy mr.requested || meetingOk) := by
  unfold chatTail
  rcases hc : (match jget? extracted_data "intent" with
      | some (.jstr s) => s == "venture_discussion"
      | _ => false : Bool)
  · simp only [hc, Bool.false_eq_true, if_false, ite_false]
    exact meetingBlock_isOk _ _ _ _ _ _ _ _
  · simp only [hc, if_true, ite_true]
    rcases hv : updateVentureFromAnalysis user_id conversation.id an ventureOk db3
      with _ | ⟨v, db'⟩ <;> simp only [hv] <;>
        exact meetingBlock_isOk _ _ _ _ _ _ _ _

/-- When no meeting is requested, the chat tail succeeds, commits no Meeting row
and reports none. -/
theorem chatTail_no_meeting (user_id : Nat) (conversation : ConvRow)
    (ai_response : String) (extracted_data : List (String × JVal))
    (mr : MeetingReq) (an : VentureAnalysis) (ventureOk meetingOk : Bool)
    (db3 : DB) (h : jTruthy mr.requested = false) :
    ∀ resp db', chatTail user_id conversation ai_response extracted_data mr an
        ventureOk meetingOk db3 = .ok (resp, db') →
      db'.meetings = db3.meetings ∧ resp.meeting_request = none := by
  intro resp db' heq
  unfold chatTail at heq
  rcases hc : (match jget? extracted_data "intent" with
      | some (.jstr s) => s == "venture_discussion"
      | _ => false : Bool)
  · rw [hc] at heq
    simp only [Bool.false_eq_true, if_false, ite_false] at heq
    rw [meetingBlock_no_meeting _ _ _ _ _ _ _ _ h] at heq
    rcases heq
    exact ⟨rfl, rfl⟩
  · rw [hc] at heq
    simp only [if_true, ite_true] at heq
    rcases hv : updateVentureFromAnalysis user_id conversation.id an ventureOk db3
      with _ | ⟨v, dbv⟩
    · rw [hv] at heq
      rw [meetingBlock_no_meeting _ _ _ _ _ _ _ _ h] at heq
      rcases heq
      exact ⟨rfl, rfl⟩
    · rw [hv] at heq
      rw [meetingBlock_no_meeting _ _ _ _ _ _ _ _ h] at heq
      rcases heq
      exact ⟨updateVenture_preserves_meetings _ _ _ _ _ _ _ hv, rfl⟩

/-- C3 (amended): when steps 1-4 succeed (conversation resolves, both message
writes persist), an error raised in the venture-analysis/upsert step is caught
and logged and the chat response still returns; meeting detection itself never
raises; but an error raised while creating the Meeting row propagates to the
endpoint's catch-all and fails the whole request with a 500. -/
theorem C3_venture_errors_absorbed_meeting_creation_not
    (message : String) (conversation_id? : Option Nat) (user_id : Nat)
    (company : Option String) (db : DB)
    (modelResult meetingModelResult ventureModelResult : Except Unit String)
    (parseObj : String → Option (List (String × JVal)))
    (ventureOk : Bool) (freshConvId : Nat)
    (hconv : conversationResolves conversation_id? user_id db = true) :
    (jTruthy (detectMeetingRequest parseObj meetingModelResult).requested = false →
      chatOk (chatEndpoint message conversation_id? user_id company db
        modelResult meetingModelResult ventureModelResult parseObj
        true true ventureOk true freshConvId) = true)
    ∧ (jTruthy (detectMeetingRequest parseObj meetingModelResult).requested = true →
        chatOk (chatEndpoint message conversation_id? user_id company db
          modelResult meetingModelResult ventureModelResult parseObj
          true true ventureOk true freshConvId) = true)
    ∧ (jTruthy (detectMeetingRequest parseObj meetingModelResult).requested = true →
        chatOk (chatEndpoint message conversation_id? user_id company db
          modelResult meetingModelResult ventureModelResult parseObj
          true true ventureOk false freshConvId) = false) := by
  have hmain : ∀ (meetingOk : Bool),
      chatOk (chatEndpoint message conversation_id? user_id company db
        modelResult meetingModelResult ventureModelResult parseObj
        true true ventureOk meetingOk freshConvId)
      = (!jTruthy (detectMeetingRequest parseObj meetingModelResult).requested
          || meetingOk) := by
    intro meetingOk
    unfold chatEndpoint chatEndpointInner
    rcases conversation_id? with _ | cid
    · rw [chatOk_wrap]
      simp only [createMessage, if_true, ite_true]
      exact chatTail_isOk _ _ _ _ _ _ _ _ _
    · rcases hg : getConversation cid user_id db with _ | c
      · simp [conversationResolves, hg] at hconv
      · rw [chatOk_wrap]
        simp only [hg, createMessage, if_true, ite_true]
        exact chatTail_isOk _ _ _ _ _ _ _ _ _
  refine ⟨?_, ?_, ?_⟩ <;> intro hreq <;> rw [hmain, hreq] <;> rfl

/-- C3 (witness): the amended claim at a concrete input where the venture step
fails but the response still succeeds, and the meeting-creation failure case
fails. -/
theorem C3_venture_errors_absorbed_meeting_creation_not_witness :
    chatOk (chatEndpoint "hi" none 1 none
        { convs := [], msgs := [], meetings := [], ventures := [] }
        (.error ()) (.error ()) (.error ()) (fun _ => none)
        true true false true 3) = true :=
  (C3_venture_errors_absorbed_meeting_creation_not "hi" none 1 none
    { convs := [], msgs := [], meetings := [], ventures := [] }
    (.error ()) (.error ()) (.error ()) (fun _ => none) false 3 rfl).1 rfl

/-- Lifting a no-meeting fact about the inner pipeline through the endpoint's
wrapper. -/
theorem noMeeting_wrap (r : Except PyExc (ChatResponse × DB)) (orig : List MeetingRow)
    (h : ∀ resp db', r = .ok (resp, db') →
      db'.meetings = orig ∧ resp.meeting_request = none) :
    noMeetingCreated (wrapResult r) orig := by
  rcases r with e | ⟨resp, db'⟩
  · trivial
  · exact h resp db' rfl

/-- C10: during an AI outage (every model call fails), `detect_meeting_request`
returns the all-default result with `requested = false`; this is forced because
the fallback apology string contains no brace characters, so the JSON-span
branch is unreachable (`jsonSpan fallbackResponse = none`); consequently the
chat endpoint commits no Meeting row and reports no meeting, whatever else
happens in the request. -/
theorem C10_no_meeting_during_ai_outage
    (message : String) (conversation_id? : Option Nat) (user_id : Nat)
    (company : Option String) (db : DB)
    (parseObj : String → Option (List (String × JVal)))
    (persistUserOk persistAiOk ventureOk meetingOk : Bool) (freshConvId : Nat) :
    detectMeetingRequest parseObj (.error ()) = defaultMeetingReq
    ∧ defaultMeetingReq.requested = .jbool false
    ∧ jsonSpan fallbackResponse = none
    ∧ noMeetingCreated
        (chatEndpoint message conversation_id? user_id company db
          (.error ()) (.error ()) (.error ()) parseObj
          persistUserOk persistAiOk ventureOk meetingOk freshConvId)
        db.meetings := by
  refine ⟨rfl, rfl, rfl, ?_⟩
  have hreq : jTruthy (detectMeetingRequest parseObj (.error ())).requested = false := rfl
  unfold chatEndpoint chatEndpointInner
  rcases conversation_id? with _ | cid
  · rcases persistUserOk
    · simp [createMessage, noMeetingCreated, wrapResult]
    · rcases persistAiOk
      · simp [createMessage, noMeetingCreated, wrapResult]
      · simp only [createMessage, if_true, ite_true]
        apply noMeeting_wrap
        intro resp db' heq
        have h2 := chatTail_no_meeting _ _ _ _ _ _ _ _ _ hreq resp db' heq
        exact h2
  · rcases hg : getConversation cid user_id db with _ | c
    · simp [hg, noMeetingCreated, wrapResult]
    · rcases persistUserOk
      · simp [hg, createMessage, noMeetingCreated, wrapResult]
      · rcases persistAiOk
        · simp [hg, createMessage, noMeetingCreated, wrapResult]
        · simp only [hg, createMessage, if_true, ite_true]
          apply noMeeting_wrap
          intro resp db' heq
          have h2 := chatTail_no_meeting _ _ _ _ _ _ _ _ _ hreq resp db' heq
          exact h2

end OpenHealth
